import Mathlib

/-!
Verification of the AST SpaceMobile telemetry core: the link-budget model
(calculate_signal_strength), the trajectory sampler (generate_satellite_passes),
the pass segmenter (identify_passes), and the per-pass report statistics.

Numeric modelling choices: Python floats are modelled as rationals; the
transcendental np.log10 is abstracted as an explicit function parameter
(log10 : Rat → Rat), so every statement below holds for the real base-10
logarithm in particular. Python round(x, n) is modelled by rounding
half-to-even at n decimal places, as CPython does.
-/

namespace AstSpaceMobile

/-- Python round-half-to-even of a rational to the nearest integer. -/
def pyRoundHalfEven (x : ℚ) : ℤ :=
  let f : ℤ := Int.floor x
  let frac : ℚ := x - f
  if frac < 1/2 then f
  else if 1/2 < frac then f + 1
  else if f % 2 = 0 then f else f + 1

/-- Python round(x, 2). -/
def round2 (x : ℚ) : ℚ := (pyRoundHalfEven (x * 100) : ℚ) / 100

/-- Python round(x, 4). -/
def round4 (x : ℚ) : ℚ := (pyRoundHalfEven (x * 10000) : ℚ) / 10000

/-! Configuration constants from src/ast_spacemobile/core/config.py. -/

/-- SIGNAL_PARAMS frequency_ghz. -/
def frequency_ghz : ℚ := 2
/-- SIGNAL_PARAMS satellite_eirp_dbw. -/
def satellite_eirp_dbw : ℚ := 55
/-- SIGNAL_PARAMS receiver_gain_dbi. -/
def receiver_gain_dbi : ℚ := 15
/-- SIGNAL_PARAMS system_losses_db. -/
def system_losses_db : ℚ := 3
/-- SIGNAL_PARAMS noise_floor_dbm. -/
def noise_floor_dbm : ℚ := -110
/-- LINK_QUALITY_THRESHOLDS excellent. -/
def threshold_excellent : ℚ := 20
/-- LINK_QUALITY_THRESHOLDS good. -/
def threshold_good : ℚ := 15
/-- LINK_QUALITY_THRESHOLDS fair. -/
def threshold_fair : ℚ := 10
/-- LINK_QUALITY_THRESHOLDS poor. -/
def threshold_poor : ℚ := 5

/-- The dictionary returned by calculate_signal_strength
(src/ast_spacemobile/core/calculations.py, lines 34-41 and 85-91). -/
structure LinkMetrics where
  received_power_dbm : Option ℚ
  snr_db : Option ℚ
  link_quality : String
  path_loss_db : Option ℚ
  atmospheric_loss_db : Option ℚ
deriving DecidableEq

/-- The all-absent metrics returned below the horizon
(calculations.py lines 34-41). -/
def noSignalMetrics : LinkMetrics :=
  { received_power_dbm := none
    snr_db := none
    link_quality := "No Signal"
    path_loss_db := none
    atmospheric_loss_db := none }

/-- The SNR-to-quality if-chain of calculations.py lines 72-83, reading the
LINK_QUALITY_THRESHOLDS configuration, high to low, first match wins. -/
def linkQualityOfSnr (snr_db : ℚ) : String :=
  if snr_db ≥ threshold_excellent then "Excellent"
  else if snr_db ≥ threshold_good then "Good"
  else if snr_db ≥ threshold_fair then "Fair"
  else if snr_db ≥ threshold_poor then "Poor"
  else "Very Poor"

/-- Free-space path loss, calculations.py lines 50-53:
frequency_mhz = frequency_ghz * 1000 and
fspl_db = 20*log10(range_km) + 20*log10(frequency_mhz) + 32.45. -/
def fspl_db (log10 : ℚ → ℚ) (range_km : ℚ) : ℚ :=
  20 * log10 range_km + 20 * log10 (frequency_ghz * 1000) + 3245/100

/-- Atmospheric attenuation, calculations.py lines 56-59. -/
def atm_loss_db (elevation_deg : ℚ) : ℚ :=
  if elevation_deg < 10 then 2 + (10 - elevation_deg) * (1/2) else 2

/-- calculate_signal_strength of src/ast_spacemobile/core/calculations.py.
The azimuth_deg argument is accepted, as in the source, and never used. -/
def calculate_signal_strength (log10 : ℚ → ℚ)
    (elevation_deg range_km azimuth_deg : ℚ) : LinkMetrics :=
  if elevation_deg < 0 then noSignalMetrics
  else
    let fspl : ℚ := fspl_db log10 range_km
    let atm : ℚ := atm_loss_db elevation_deg
    let total_path_loss_db : ℚ := fspl + atm + system_losses_db
    let satellite_eirp_dbm : ℚ := satellite_eirp_dbw + 30
    let received_power_dbm : ℚ :=
      satellite_eirp_dbm - total_path_loss_db + receiver_gain_dbi
    let snr_db : ℚ := received_power_dbm - noise_floor_dbm
    { received_power_dbm := some (round2 received_power_dbm)
      snr_db := some (round2 snr_db)
      link_quality := linkQualityOfSnr snr_db
      path_loss_db := some (round2 total_path_loss_db)
      atmospheric_loss_db := some (round2 atm) }

/-- The per-tick observer-relative geometry produced by the external Skyfield
propagator and topocentric transform (alt.degrees, az.degrees, distance.km,
and the satellite sub-point), before any rounding.  The propagator is an
external capability, so the sampler below is parametrised over a geometry
function from tick time to Geometry. -/
structure Geometry where
  elevation_deg : ℚ
  azimuth_deg : ℚ
  range_km : ℚ
  satellite_lat : ℚ
  satellite_lon : ℚ
  satellite_alt_km : ℚ
deriving DecidableEq

/-- The position_data dictionary built for one tick
(calculations.py lines 145-156); its signal-metric keys, spliced inline in
the Python dict, are grouped in the metrics field.  Time is modelled as the
unix timestamp in whole seconds. -/
structure Sample where
  unix_timestamp : ℤ
  elevation_deg : ℚ
  azimuth_deg : ℚ
  range_km : ℚ
  satellite_lat : ℚ
  satellite_lon : ℚ
  satellite_alt_km : ℚ
  visible : Bool
  metrics : LinkMetrics
deriving DecidableEq

/-- One iteration body of the sampling loop: round the geometry for the
record fields, decide visibility on the UNROUNDED elevation (line 154:
bool(alt.degrees > 0)), and attach the link metrics. -/
def sampleAt (log10 : ℚ → ℚ) (geom : ℤ → Geometry) (t : ℤ) : Sample :=
  let g := geom t
  { unix_timestamp := t
    elevation_deg := round2 g.elevation_deg
    azimuth_deg := round2 g.azimuth_deg
    range_km := round2 g.range_km
    satellite_lat := round4 g.satellite_lat
    satellite_lon := round4 g.satellite_lon
    satellite_alt_km := round2 g.satellite_alt_km
    visible := decide (0 < g.elevation_deg)
    metrics := calculate_signal_strength log10 g.elevation_deg g.range_km g.azimuth_deg }

/-- The while-loop of generate_satellite_passes (calculations.py lines
119-159): while current <= end, emit a sample and advance by the interval.
The Python loop terminates only for a positive interval, so the embedding
carries that bound as a proof argument. -/
def sampleLoop (log10 : ℚ → ℚ) (geom : ℤ → Geometry)
    (current end_time interval : ℤ) (hpos : 0 < interval) : List Sample :=
  if current ≤ end_time then
    sampleAt log10 geom current ::
      sampleLoop log10 geom (current + interval) end_time interval hpos
  else []
termination_by (end_time + 1 - current).toNat
decreasing_by omega

/-- generate_satellite_passes of src/ast_spacemobile/core/calculations.py.
The Skyfield satellite and observer arguments are abstracted into the
geometry function; interval_seconds defaults to 5 in the source. -/
def generate_satellite_passes (log10 : ℚ → ℚ) (geom : ℤ → Geometry)
    (start_time end_time interval_seconds : ℤ)
    (hpos : 0 < interval_seconds) : List Sample :=
  sampleLoop log10 geom start_time end_time interval_seconds hpos

/-- The scan state machine of identify_passes
(src/ast_spacemobile/analysis/passes.py lines 20-43), with the visibility
key access pos["visible"] abstracted as a function, matching the duck-typed
Python dictionaries. -/
def identifyLoop (visible : α → Bool) :
    List α → Bool → List α → List (List α) → List (List α)
  | [], in_pass, current_pass, passes =>
      if in_pass && !current_pass.isEmpty then passes ++ [current_pass] else passes
  | pos :: rest, in_pass, current_pass, passes =>
      if visible pos && !in_pass then
        identifyLoop visible rest true [pos] passes
      else if visible pos && in_pass then
        identifyLoop visible rest true (current_pass ++ [pos]) passes
      else if !visible pos && in_pass then
        identifyLoop visible rest false []
          (if !current_pass.isEmpty then passes ++ [current_pass] else passes)
      else
        identifyLoop visible rest in_pass current_pass passes

/-- identify_passes of src/ast_spacemobile/analysis/passes.py. -/
def identify_passes (visible : α → Bool) (positions : List α) : List (List α) :=
  identifyLoop visible positions false [] []

/-- Specification-side definition: the maximal contiguous runs of elements
satisfying visible, in input order.  Used to characterise identify_passes. -/
def visibleRuns (visible : α → Bool) : List α → List (List α)
  | [] => []
  | x :: xs =>
      if visible x then
        (x :: xs.takeWhile visible) :: visibleRuns visible (xs.dropWhile visible)
      else visibleRuns visible xs
termination_by l => l.length
decreasing_by
  · simp only [List.length_cons]
    exact Nat.lt_succ_of_le (List.dropWhile_sublist visible).length_le
  · simp

/-! Report-generator pass statistics
(src/ast_spacemobile/reports/generator.py). -/

/-- The sampling interval the report generator passes to
generate_satellite_passes (generator.py line 102, interval_seconds=5). -/
def report_interval_seconds : ℤ := 5

/-- duration_secs = len(pass_data) * 5 (generator.py lines 507 and 543). -/
def pass_duration_secs (pass_data : List Sample) : ℤ :=
  pass_data.length * 5

/-- Collects a list of optional values, failing if any is absent: the Python
list comprehension [p["snr_db"] for p in pass_data] followed by max() raises
on a None, so the embedding is Option-valued. -/
def collectSome : List (Option ℚ) → Option (List ℚ)
  | [] => some []
  | none :: _ => none
  | some x :: rest => (collectSome rest).map (x :: ·)

/-- peak_snr = max(snr_values) over a pass (generator.py lines 556-557). -/
def pass_peak_snr (pass_data : List Sample) : Option ℚ :=
  (collectSome (pass_data.map (fun s => s.metrics.snr_db))).bind List.max?

/-- The literal if-chain computing the link quality at peak from peak_snr
(generator.py lines 560-569). -/
def peak_link_quality (peak_snr : ℚ) : String :=
  if peak_snr ≥ 20 then "Excellent"
  else if peak_snr ≥ 15 then "Good"
  else if peak_snr ≥ 10 then "Fair"
  else if peak_snr ≥ 5 then "Poor"
  else "Very Poor"

/-- Link quality at peak as reported in the detailed pass section:
recomputed from the peak SNR of the pass. -/
def pass_link_quality_at_peak (pass_data : List Sample) : Option String :=
  (pass_peak_snr pass_data).map peak_link_quality

/-! Concrete instances used by witnesses and counterexamples. -/

/-- A constant-geometry propagation used to instantiate theorems. -/
def testGeometry (e : ℚ) : ℤ → Geometry :=
  fun _ =>
    { elevation_deg := e
      azimuth_deg := 0
      range_km := 500
      satellite_lat := 0
      satellite_lon := 0
      satellite_alt_km := 0 }

/-- A trivial stand-in for np.log10 used to instantiate theorems whose
truth does not depend on the logarithm. -/
def zeroLog10 : ℚ → ℚ := fun _ => 0

/-- Number of loop iterations of sampleLoop from a given current time. -/
def numTicks (current end_time interval : ℤ) : ℕ :=
  ((end_time - current) / interval + 1).toNat

/-! Helper lemmas. -/

/-- The threshold chain never yields the below-horizon marker string. -/
theorem linkQualityOfSnr_ne_noSignal (s : ℚ) : linkQualityOfSnr s ≠ "No Signal" := by
  unfold linkQualityOfSnr
  split_ifs <;> decide

/-- C1: below the horizon (elevation < 0) calculate_signal_strength returns
the all-absent NoSignal record with no further computation; at or above the
horizon every metric field is populated and the quality is not NoSignal, so
no output is partially populated. -/
theorem calculate_signal_strength_all_or_none (log10 : ℚ → ℚ) (e r a : ℚ) :
    (e < 0 → calculate_signal_strength log10 e r a = noSignalMetrics) ∧
    (0 ≤ e →
      (calculate_signal_strength log10 e r a).received_power_dbm.isSome = true ∧
      (calculate_signal_strength log10 e r a).snr_db.isSome = true ∧
      (calculate_signal_strength log10 e r a).path_loss_db.isSome = true ∧
      (calculate_signal_strength log10 e r a).atmospheric_loss_db.isSome = true ∧
      (calculate_signal_strength log10 e r a).link_quality ≠ "No Signal") := by
  constructor
  · intro h
    simp [calculate_signal_strength, h]
  · intro h
    simp [calculate_signal_strength, not_lt.2 h, linkQualityOfSnr_ne_noSignal]

/-- Closed instance of C1 at elevation -1 and at elevation 5, range 500. -/
theorem calculate_signal_strength_all_or_none_witness :
    calculate_signal_strength zeroLog10 (-1) 500 0 = noSignalMetrics ∧
    (calculate_signal_strength zeroLog10 5 500 0).snr_db.isSome = true :=
  ⟨(calculate_signal_strength_all_or_none zeroLog10 (-1) 500 0).1 (by norm_num),
   ((calculate_signal_strength_all_or_none zeroLog10 5 500 0).2 (by norm_num)).2.1⟩

/-- C9: the result of calculate_signal_strength does not depend on the
azimuth_deg argument. -/
theorem calculate_signal_strength_azimuth_independent
    (log10 : ℚ → ℚ) (e r a₁ a₂ : ℚ) :
    calculate_signal_strength log10 e r a₁ = calculate_signal_strength log10 e r a₂ := rfl

/-- C5: for elevation at or above the horizon and positive range, the
reported total path loss is exactly the free-space path loss plus the
atmospheric loss plus the system-loss constant (3 dB), rounded to the fixed
two-decimal reporting precision; the FSPL follows the standard relation at
frequency 2000 MHz, and the atmospheric loss is the stated two-piece
function of elevation. -/
theorem path_loss_composition (log10 : ℚ → ℚ) (e r a : ℚ)
    (he : 0 ≤ e) (hr : 0 < r) :
    (calculate_signal_strength log10 e r a).path_loss_db =
        some (round2 (fspl_db log10 r + atm_loss_db e + system_losses_db)) ∧
    (calculate_signal_strength log10 e r a).atmospheric_loss_db =
        some (round2 (atm_loss_db e)) ∧
    fspl_db log10 r = 20 * log10 r + 20 * log10 2000 + 3245/100 ∧
    system_losses_db = 3 ∧
    (10 ≤ e → atm_loss_db e = 2) ∧
    (e < 10 → atm_loss_db e = 2 + (10 - e) * (1/2)) := by
  refine ⟨?_, ?_, ?_, rfl, ?_, ?_⟩
  · simp [calculate_signal_strength, not_lt.2 he]
  · simp [calculate_signal_strength, not_lt.2 he]
  · unfold fspl_db frequency_ghz
    norm_num
  · intro h
    unfold atm_loss_db
    rw [if_neg (not_lt.2 h)]
  · intro h
    unfold atm_loss_db
    rw [if_pos h]

/-- Closed instance of C5 at elevation 5, range 500 under the trivial
logarithm: path loss evaluates to 32.45 + 4.5 + 3 = 39.95 dB. -/
theorem path_loss_composition_witness :
    (calculate_signal_strength zeroLog10 5 500 0).path_loss_db = some (799/20) := by
  have h := (path_loss_composition zeroLog10 5 500 0 (by norm_num) (by norm_num)).1
  rw [h]
  norm_num [round2, pyRoundHalfEven, fspl_db, atm_loss_db, system_losses_db,
    zeroLog10, frequency_ghz]

/-- Rank of a quality string in the order VeryPoor < Poor < Fair < Good <
Excellent, for stating monotonicity. -/
def qualityRank : String → ℕ
  | "Excellent" => 4
  | "Good" => 3
  | "Fair" => 2
  | "Poor" => 1
  | _ => 0

/-- C6: link quality is a monotone step function of SNR under the order
Excellent > Good > Fair > Poor > VeryPoor (quality never improves as SNR
drops), the thresholds are evaluated high to low with the first match
winning (20, 15, 10, 5), and the six stated sample SNR values map to the
stated qualities. -/
theorem link_quality_step_function :
    (∀ s₁ s₂ : ℚ, s₁ ≤ s₂ →
        qualityRank (linkQualityOfSnr s₁) ≤ qualityRank (linkQualityOfSnr s₂)) ∧
    (∀ s : ℚ,
      (20 ≤ s → linkQualityOfSnr s = "Excellent") ∧
      (15 ≤ s → s < 20 → linkQualityOfSnr s = "Good") ∧
      (10 ≤ s → s < 15 → linkQualityOfSnr s = "Fair") ∧
      (5 ≤ s → s < 10 → linkQualityOfSnr s = "Poor") ∧
      (s < 5 → linkQualityOfSnr s = "Very Poor")) ∧
    linkQualityOfSnr 25 = "Excellent" ∧ linkQualityOfSnr 20 = "Excellent" ∧
    linkQualityOfSnr 17 = "Good" ∧ linkQualityOfSnr 12 = "Fair" ∧
    linkQualityOfSnr 7 = "Poor" ∧ linkQualityOfSnr 2 = "Very Poor" := by
  refine ⟨?_, ?_, by decide, by decide, by decide, by decide, by decide, by decide⟩
  · intro s₁ s₂ h
    simp only [linkQualityOfSnr, threshold_excellent, threshold_good,
      threshold_fair, threshold_poor]
    split_ifs <;> first | decide | linarith
  · intro s
    simp only [linkQualityOfSnr, threshold_excellent, threshold_good,
      threshold_fair, threshold_poor]
    refine ⟨fun h => ?_, fun h h' => ?_, fun h h' => ?_, fun h h' => ?_, fun h => ?_⟩ <;>
      split_ifs <;> first | rfl | linarith

/-- Closed instance of C6: monotonicity applied at 3 and 18, and the Good
band applied at 18. -/
theorem link_quality_step_function_witness :
    qualityRank (linkQualityOfSnr 3) ≤ qualityRank (linkQualityOfSnr 18) ∧
    linkQualityOfSnr 18 = "Good" :=
  ⟨link_quality_step_function.1 3 18 (by norm_num),
   (link_quality_step_function.2.1 18).2.1 (by norm_num) (by norm_num)⟩

/-- C4: the horizon cutoffs are asymmetric — a sample is visible only for
strictly positive unrounded elevation, while the link budget degrades to
NoSignal only for strictly negative elevation; at exactly 0 degrees the
sample is not visible yet carries fully populated link metrics. -/
theorem horizon_boundary_asymmetry :
    (∀ (log10 : ℚ → ℚ) (geom : ℤ → Geometry) (t : ℤ),
        (sampleAt log10 geom t).visible = decide (0 < (geom t).elevation_deg)) ∧
    (∀ (log10 : ℚ → ℚ) (e r a : ℚ), e < 0 →
        (calculate_signal_strength log10 e r a).link_quality = "No Signal") ∧
    (∀ (log10 : ℚ → ℚ) (e r a : ℚ), 0 ≤ e →
        (calculate_signal_strength log10 e r a).link_quality ≠ "No Signal") ∧
    (∀ (log10 : ℚ → ℚ) (geom : ℤ → Geometry) (t : ℤ),
        (geom t).elevation_deg = 0 →
          (sampleAt log10 geom t).visible = false ∧
          (sampleAt log10 geom t).metrics.received_power_dbm.isSome = true ∧
          (sampleAt log10 geom t).metrics.snr_db.isSome = true ∧
          (sampleAt log10 geom t).metrics.path_loss_db.isSome = true ∧
          (sampleAt log10 geom t).metrics.atmospheric_loss_db.isSome = true) := by
  refine ⟨fun log10 geom t => rfl, ?_, ?_, ?_⟩
  · intro log10 e r a h
    simp [calculate_signal_strength, h, noSignalMetrics]
  · intro log10 e r a h
    simp [calculate_signal_strength, not_lt.2 h, linkQualityOfSnr_ne_noSignal]
  · intro log10 geom t h
    simp [sampleAt, h, calculate_signal_strength]

/-- Closed instance of C4 at a propagated elevation of exactly 0 degrees:
not visible, yet the SNR metric is populated. -/
theorem horizon_boundary_asymmetry_witness :
    (sampleAt zeroLog10 (testGeometry 0) 0).visible = false ∧
    (sampleAt zeroLog10 (testGeometry 0) 0).metrics.snr_db.isSome = true := by
  have h := horizon_boundary_asymmetry.2.2.2 zeroLog10 (testGeometry 0) 0 rfl
  exact ⟨h.1, h.2.2.1⟩

/-- C10: visibility is decided on the unrounded propagated elevation while
the stored elevation_deg field is rounded to two decimals, so a propagated
elevation strictly between 0 and 0.005 degrees yields a sample that reports
elevation_deg = 0 while visible = true. -/
theorem rounded_elevation_visibility_gap :
    (∀ (log10 : ℚ → ℚ) (geom : ℤ → Geometry) (t : ℤ),
        (sampleAt log10 geom t).elevation_deg = round2 ((geom t).elevation_deg) ∧
        (sampleAt log10 geom t).visible = decide (0 < (geom t).elevation_deg)) ∧
    (∃ e : ℚ, 0 < e ∧ e < 5/1000 ∧
        (sampleAt zeroLog10 (testGeometry e) 0).elevation_deg = 0 ∧
        (sampleAt zeroLog10 (testGeometry e) 0).visible = true) := by
  refine ⟨fun log10 geom t => ⟨rfl, rfl⟩, ⟨1/1000, by norm_num, by norm_num, ?_, ?_⟩⟩
  · show round2 ((testGeometry (1/1000) 0).elevation_deg) = 0
    norm_num [testGeometry, round2, pyRoundHalfEven]
  · show decide (0 < (testGeometry (1/1000) 0).elevation_deg) = true
    norm_num [testGeometry]

/-! Segmenter characterisation. -/

/-- Invariant of the identify_passes scan: started not-in-pass with an empty
accumulator it appends exactly the maximal visible runs; started in-pass
with a non-empty accumulator it first finishes the run in progress. -/
theorem identifyLoop_spec (visible : α → Bool) (l : List α) :
    (∀ passes, identifyLoop visible l false [] passes = passes ++ visibleRuns visible l) ∧
    (∀ current passes, current ≠ [] →
      identifyLoop visible l true current passes =
        passes ++ (current ++ l.takeWhile visible) ::
          visibleRuns visible (l.dropWhile visible)) := by
  induction l with
  | nil =>
    constructor
    · intro passes
      simp [identifyLoop, visibleRuns]
    · intro current passes hc
      simp [identifyLoop, visibleRuns, hc]
  | cons x xs ih =>
    obtain ⟨ihF, ihT⟩ := ih
    constructor
    · intro passes
      by_cases hv : visible x = true
      · rw [identifyLoop, if_pos (by simp [hv])]
        rw [ihT [x] passes (by simp)]
        rw [visibleRuns, if_pos hv]
        simp
      · rw [identifyLoop, if_neg (by simp [hv]), if_neg (by simp [hv]),
          if_neg (by simp [hv])]
        rw [ihF passes, visibleRuns, if_neg hv]
    · intro current passes hc
      by_cases hv : visible x = true
      · rw [identifyLoop, if_neg (by simp [hv]), if_pos (by simp [hv])]
        rw [ihT (current ++ [x]) passes (by simp)]
        rw [List.takeWhile_cons, if_pos hv, List.dropWhile_cons, if_pos hv]
        simp
      · rw [identifyLoop, if_neg (by simp [hv]), if_neg (by simp [hv]),
          if_pos (by simp [hv]), if_pos (by simp [hc])]
        rw [ihF (passes ++ [current])]
        rw [List.takeWhile_cons, if_neg hv, List.dropWhile_cons, if_neg hv]
        rw [visibleRuns, if_neg hv]
        simp

/-- Every emitted maximal run is non-empty. -/
theorem visibleRuns_ne_nil (visible : α → Bool) (l : List α) :
    ∀ p ∈ visibleRuns visible l, p ≠ [] := by
  match l with
  | [] =>
    simp [visibleRuns]
  | x :: xs =>
    rw [visibleRuns]
    by_cases hv : visible x = true
    · rw [if_pos hv]
      intro p hp
      rcases List.mem_cons.1 hp with h | h
      · subst h; simp
      · exact visibleRuns_ne_nil visible (xs.dropWhile visible) p h
    · rw [if_neg hv]
      exact visibleRuns_ne_nil visible xs
termination_by l.length
decreasing_by
  · simpa using Nat.lt_succ_of_le (List.dropWhile_sublist visible).length_le
  · simp

/-- An all-visible non-empty input is one single run. -/
theorem visibleRuns_all_visible (visible : α → Bool) (l : List α)
    (hne : l ≠ []) (h : ∀ a ∈ l, visible a = true) :
    visibleRuns visible l = [l] := by
  match l with
  | x :: xs =>
    rw [visibleRuns, if_pos (h x (by simp))]
    have ht : xs.takeWhile visible = xs :=
      List.takeWhile_eq_self_iff.2 (fun a ha => h a (by simp [ha]))
    have hd : xs.dropWhile visible = [] :=
      List.dropWhile_eq_nil_iff.2 (fun a ha => h a (by simp [ha]))
    rw [ht, hd, visibleRuns]

/-- An all-invisible input yields no runs. -/
theorem visibleRuns_all_invisible (visible : α → Bool) (l : List α)
    (h : ∀ a ∈ l, visible a = false) :
    visibleRuns visible l = [] := by
  induction l with
  | nil => rw [visibleRuns]
  | cons x xs ih =>
    rw [visibleRuns, if_neg (by simp [h x (by simp)])]
    exact ih (fun a ha => h a (by simp [ha]))

/-- Splitting at the first failing element preserves the filtered content. -/
theorem takeWhile_append_filter_dropWhile (p : α → Bool) (l : List α) :
    l.takeWhile p ++ (l.dropWhile p).filter p = l.filter p := by
  induction l with
  | nil => simp
  | cons x xs ih =>
    by_cases h : p x = true
    · rw [List.takeWhile_cons, if_pos h, List.dropWhile_cons, if_pos h,
        List.filter_cons, if_pos h]
      simpa using ih
    · rw [List.takeWhile_cons, if_neg h, List.dropWhile_cons, if_neg h]
      simp

/-- Concatenating the maximal runs recovers the visible elements in order. -/
theorem visibleRuns_join (visible : α → Bool) (l : List α) :
    (visibleRuns visible l).flatten = l.filter visible := by
  match l with
  | [] =>
    simp [visibleRuns]
  | x :: xs =>
    rw [visibleRuns]
    by_cases hv : visible x = true
    · rw [if_pos hv, List.flatten_cons,
        visibleRuns_join visible (xs.dropWhile visible),
        List.filter_cons, if_pos hv]
      simp [takeWhile_append_filter_dropWhile]
    · rw [if_neg hv, visibleRuns_join visible xs, List.filter_cons, if_neg hv]
termination_by l.length
decreasing_by
  · simpa using Nat.lt_succ_of_le (List.dropWhile_sublist visible).length_le
  · simp

/-- C2: identify_passes returns exactly the maximal contiguous runs of
visible samples in input order — it equals the canonical run decomposition;
the empty input gives no passes, an all-visible input gives the single pass
holding every sample (so a pass still open at end of input is emitted), an
all-invisible input gives no passes, every emitted pass is non-empty, and
joining the passes recovers the visible samples in order. -/
theorem identify_passes_maximal_runs (visible : α → Bool) (l : List α) :
    identify_passes visible l = visibleRuns visible l ∧
    identify_passes visible ([] : List α) = [] ∧
    (∀ p ∈ identify_passes visible l, p ≠ []) ∧
    (l ≠ [] → (∀ a ∈ l, visible a = true) → identify_passes visible l = [l]) ∧
    ((∀ a ∈ l, visible a = false) → identify_passes visible l = []) ∧
    (identify_passes visible l).flatten = l.filter visible := by
  have hmain : identify_passes visible l = visibleRuns visible l := by
    unfold identify_passes
    simpa using (identifyLoop_spec visible l).1 []
  refine ⟨hmain, rfl, ?_, ?_, ?_, ?_⟩
  · rw [hmain]
    exact visibleRuns_ne_nil visible l
  · intro hne hall
    rw [hmain]
    exact visibleRuns_all_visible visible l hne hall
  · intro hnone
    rw [hmain]
    exact visibleRuns_all_invisible visible l hnone
  · rw [hmain]
    exact visibleRuns_join visible l

/-- Closed instances of C2: a two-element all-visible input is one pass of
both samples, and an all-invisible input yields no passes. -/
theorem identify_passes_maximal_runs_witness :
    identify_passes (fun b : Bool => b) [true, true] = [[true, true]] ∧
    identify_passes (fun b : Bool => b) [false, false] = [] :=
  ⟨(identify_passes_maximal_runs (fun b : Bool => b) [true, true]).2.2.2.1
      (by simp) (by simp),
   (identify_passes_maximal_runs (fun b : Bool => b) [false, false]).2.2.2.2.1
      (by simp)⟩

/-! Sampler tick arithmetic. -/

/-- One loop iteration consumes exactly one tick. -/
theorem numTicks_step (current end_time interval : ℤ) (hpos : 0 < interval)
    (h : current ≤ end_time) :
    numTicks current end_time interval =
      numTicks (current + interval) end_time interval + 1 := by
  unfold numTicks
  have hrw : end_time - (current + interval) = end_time - current + -1 * interval := by
    ring
  rw [hrw, Int.add_mul_ediv_right _ _ (ne_of_gt hpos)]
  have hq : 0 ≤ (end_time - current) / interval :=
    Int.ediv_nonneg (by omega) (le_of_lt hpos)
  omega

/-- Past the window end the loop runs zero iterations. -/
theorem numTicks_zero (current end_time interval : ℤ) (hpos : 0 < interval)
    (h : ¬ current ≤ end_time) :
    numTicks current end_time interval = 0 := by
  unfold numTicks
  have hneg : (end_time - current) / interval < 0 := Int.ediv_neg' (by omega) hpos
  omega

/-- The timestamps produced by the sampling loop are exactly the arithmetic
tick grid current, current + interval, current + 2·interval, ... -/
theorem sampleLoop_timestamps (log10 : ℚ → ℚ) (geom : ℤ → Geometry)
    (current end_time interval : ℤ) (hpos : 0 < interval) :
    (sampleLoop log10 geom current end_time interval hpos).map
        (fun s => s.unix_timestamp)
      = (List.range (numTicks current end_time interval)).map
          (fun k : ℕ => current + (k : ℤ) * interval) := by
  by_cases h : current ≤ end_time
  · rw [sampleLoop, if_pos h, numTicks_step current end_time interval hpos h,
      List.range_succ_eq_map]
    simp only [List.map_cons, List.map_map]
    congr 1
    · simp [sampleAt]
    · rw [sampleLoop_timestamps log10 geom (current + interval) end_time interval hpos]
      apply List.map_congr_left
      intro k _
      simp only [Function.comp_apply]
      push_cast
      ring
  · rw [sampleLoop, if_neg h, numTicks_zero current end_time interval hpos h]
    simp
termination_by (end_time + 1 - current).toNat
decreasing_by omega

/-- C3: for start ≤ end and a positive interval the sampler emits exactly
one sample per tick start, start + interval, ..., through the last tick at
or before end and none beyond it; an end of start + 59 s at a 5 s interval
gives exactly 12 samples, and start = end gives exactly one sample. -/
theorem generate_satellite_passes_tick_grid (log10 : ℚ → ℚ) (geom : ℤ → Geometry)
    (start_time end_time interval : ℤ) (hpos : 0 < interval)
    (hse : start_time ≤ end_time) :
    ((generate_satellite_passes log10 geom start_time end_time interval hpos).map
        (fun s => s.unix_timestamp)
      = (List.range (((end_time - start_time) / interval + 1).toNat)).map
          (fun k : ℕ => start_time + (k : ℤ) * interval)) ∧
    (generate_satellite_passes log10 geom start_time end_time interval hpos).length
      = ((end_time - start_time) / interval + 1).toNat ∧
    (∀ s ∈ generate_satellite_passes log10 geom start_time end_time interval hpos,
        start_time ≤ s.unix_timestamp ∧ s.unix_timestamp ≤ end_time) ∧
    (end_time = start_time + 59 → interval = 5 →
      (generate_satellite_passes log10 geom start_time end_time interval hpos).length
        = 12) ∧
    (end_time = start_time →
      (generate_satellite_passes log10 geom start_time end_time interval hpos).length
        = 1) := by
  have hts := sampleLoop_timestamps log10 geom start_time end_time interval hpos
  have hlen : (generate_satellite_passes log10 geom start_time end_time
      interval hpos).length = ((end_time - start_time) / interval + 1).toNat := by
    have h := congrArg List.length hts
    simpa [numTicks, generate_satellite_passes] using h
  refine ⟨by simpa [generate_satellite_passes, numTicks] using hts, hlen, ?_, ?_, ?_⟩
  · intro s hs
    have hmem : s.unix_timestamp ∈
        (generate_satellite_passes log10 geom start_time end_time interval
          hpos).map (fun s => s.unix_timestamp) :=
      List.mem_map_of_mem _ hs
    rw [show (generate_satellite_passes log10 geom start_time end_time interval
        hpos).map (fun s => s.unix_timestamp) = _ from
      by simpa [generate_satellite_passes, numTicks] using hts] at hmem
    obtain ⟨k, hk, hEq⟩ := List.mem_map.1 hmem
    rw [List.mem_range] at hk
    have hq : 0 ≤ (end_time - start_time) / interval :=
      Int.ediv_nonneg (by omega) (le_of_lt hpos)
    have hk' : (k : ℤ) ≤ (end_time - start_time) / interval := by omega
    have hmul : (k : ℤ) * interval ≤ end_time - start_time :=
      (Int.le_ediv_iff_mul_le hpos).1 hk'
    have hk0 : 0 ≤ (k : ℤ) * interval :=
      mul_nonneg (Int.ofNat_nonneg k) (le_of_lt hpos)
    omega
  · intro h59 h5
    subst h59
    subst h5
    rw [hlen]
    have : start_time + 59 - start_time = 59 := by ring
    rw [this]
    decide
  · intro heq
    subst heq
    rw [hlen]
    simp [Int.zero_ediv]

/-- Closed instance of C3: one minute minus a second at a 5 second cadence
is exactly 12 samples. -/
theorem generate_satellite_passes_tick_grid_witness :
    (generate_satellite_passes zeroLog10 (testGeometry 10) 0 59 5
        (by decide)).length = 12 :=
  (generate_satellite_passes_tick_grid zeroLog10 (testGeometry 10) 0 59 5
      (by decide) (by decide)).2.2.2.1 rfl rfl

/-- C7 counterexample: generate_satellite_passes performs no input
validation at all — for end before start it is not rejected with any error;
the while loop body never runs and the empty sample list is returned
normally to the caller. -/
theorem sampler_no_invalid_input_counterexample :
    generate_satellite_passes zeroLog10 (testGeometry 10) 10 5 5 (by decide) = [] := by
  unfold generate_satellite_passes
  rw [sampleLoop, if_neg (by decide)]

/-- C7 amended: the sampler rejects nothing — a call with end < start
silently returns the empty sample sequence (and a non-positive interval is
not rejected either: the source loop then never terminates, which is why
the embedding is only defined for a positive interval). -/
theorem sampler_end_lt_start_returns_empty (log10 : ℚ → ℚ) (geom : ℤ → Geometry)
    (start_time end_time interval : ℤ) (hpos : 0 < interval)
    (h : end_time < start_time) :
    generate_satellite_passes log10 geom start_time end_time interval hpos = [] := by
  unfold generate_satellite_passes
  rw [sampleLoop, if_neg (by omega)]

/-- Closed instance of the amended C7 at start 7, end 3, interval 2. -/
theorem sampler_end_lt_start_returns_empty_witness :
    generate_satellite_passes zeroLog10 (testGeometry 10) 7 3 2 (by decide) = [] :=
  sampler_end_lt_start_returns_empty zeroLog10 (testGeometry 10) 7 3 2
    (by decide) (by decide)

/-- A hand-built sample carrying a given SNR, for instantiating statements
about the report statistics. -/
def testSample (snr : ℚ) : Sample :=
  { unix_timestamp := 0
    elevation_deg := 45
    azimuth_deg := 0
    range_km := 500
    satellite_lat := 0
    satellite_lon := 0
    satellite_alt_km := 0
    visible := true
    metrics :=
      { received_power_dbm := some 62
        snr_db := some snr
        link_quality := linkQualityOfSnr snr
        path_loss_db := some 37
        atmospheric_loss_db := some 2 } }

/-- C8: the reported per-pass duration is the sample count times the 5 s
interval the report generator samples with, and the link quality at peak is
recomputed from the peak SNR of the pass through exactly the same threshold
chain as the link-budget model, not copied from any stored per-sample
quality. -/
theorem pass_statistics_convention :
    (∀ p : List Sample, pass_duration_secs p = p.length * report_interval_seconds) ∧
    (∀ s : ℚ, peak_link_quality s = linkQualityOfSnr s) ∧
    (∀ (p : List Sample) (s : ℚ), pass_peak_snr p = some s →
        pass_link_quality_at_peak p = some (linkQualityOfSnr s)) := by
  refine ⟨fun p => rfl, fun s => rfl, ?_⟩
  intro p s h
  unfold pass_link_quality_at_peak
  rw [h]
  rfl

/-- Closed instance of C8: a one-sample pass with SNR 25 reports the quality
recomputed from its peak SNR. -/
theorem pass_statistics_convention_witness :
    pass_link_quality_at_peak [testSample 25] = some (linkQualityOfSnr 25) :=
  pass_statistics_convention.2.2 [testSample 25] 25 rfl

end AstSpaceMobile
